import Mathlib

/-!
# Script opcode handlers of the BBDOU engine

A shallow embedding of `engines/illusions/bbdou/scriptopcodes_bbdou.cpp`.

Every handler `ScriptOpcodes_BBDOU::opX(ScriptThread *scriptThread, OpCall &opCall)` becomes a
function of its decoded operands (the values bound by the `ARG_INT16` / `ARG_UINT32` macros, in
source order), of the issuing script thread where the handler reads it, of the engine state
`_vm` and of the call context `opCall` as it stands right after operand decoding.  A handler
that can fault (pop of an empty stack, use of a null pointer) returns `Option`.

Machine integers are `Int` / `Nat`; narrowing conversions are written out (`toInt16`, `% 256`).
Calls into engine subsystems whose code lives in other files are recorded, in order, in the
`calls` trace of the engine state.
-/

namespace Illusions

/-! ## Data model -/

/-- Conversion of an integer to `int16` (two's complement narrowing). -/
def toInt16 (x : Int) : Int := (x + 32768) % 65536 - 32768

/-- Outcome of a dispatch, the values of `opCall._result` (`kTSRun` is "continue"). -/
inductive ThreadStatus where
  | kTSTerminate
  | kTSYield
  | kTSSuspend
  | kTSRun
  deriving DecidableEq, Repr

/-- Modelled from the spec: the call context `OpCall` (its declaration is in scriptopcodes.h):
current code pointer, signed offset delta, owning thread id, caller thread id and outcome. -/
structure OpCall where
  _threadId : Nat
  _callerThreadId : Nat
  _deltaOfs : Int
  _code : Nat
  _result : ThreadStatus
  deriving DecidableEq, Repr

/-- The three context values of a script thread read by the handlers. -/
structure ScriptThread where
  _value8 : Nat
  _valueC : Nat
  _value10 : Nat
  deriving DecidableEq, Repr

/-- The fields of a `Thread` read by the handlers. -/
structure Thread where
  _threadId : Nat
  _callingThreadId : Nat
  _notifyFlags : Nat
  deriving DecidableEq, Repr

/-- Modelled from the spec: the operand stack `ScriptStack` (scriptstack.h), an ordered sequence
of signed 16-bit values with push / pop / peek; the head of the list is the stack top. -/
structure ScriptStack where
  _stack : List Int
  deriving DecidableEq, Repr

/-- Modelled from the spec: `push(v: int16)`. -/
def ScriptStack.push (s : ScriptStack) (value : Int) : ScriptStack :=
  ⟨toInt16 value :: s._stack⟩

/-- Modelled from the spec: `pop() -> int16`; a pop of the empty stack is a fault. -/
def ScriptStack.pop (s : ScriptStack) : Option (Int × ScriptStack) :=
  match s._stack with
  | [] => none
  | value :: rest => some (value, ⟨rest⟩)

/-- Modelled from the spec: `peek() -> int16` (no removal). -/
def ScriptStack.peek (s : ScriptStack) : Option Int :=
  s._stack.head?

/-- Modelled from the spec: the block-counter store `BlockCounters` (scriptresource.h), byte
counters addressed by index: `get(index) -> byte`, `set(index, value)`. -/
structure BlockCounters where
  _blockCounters : Int → Nat

/-- Modelled from the spec: `getCounter(index) -> byte`. -/
def BlockCounters.get (bc : BlockCounters) (index : Int) : Nat :=
  bc._blockCounters index % 256

/-- Modelled from the spec: `setCounter(index, value)`, the parameter being a byte. -/
def BlockCounters.set (bc : BlockCounters) (index : Int) (value : Nat) : BlockCounters :=
  ⟨fun i => if i = index then value % 256 else bc._blockCounters i⟩

/-- A live control of the object directory, with the data it was placed with. -/
structure Control where
  _objectId : Nat
  _actorTypeId : Nat
  _sequenceId : Nat
  _position : Int × Int
  deriving DecidableEq, Repr

/-- Calls into engine subsystems defined outside this file, with their arguments. -/
inductive Call where
  | notifyThreadId (threadId : Nat)
  | discardAllEvents
  | exitScene (threadId : Nat)
  | enterScene (sceneId threadId : Nat)
  | startAnonScriptThread (threadId callerThreadId value8 valueC value10 : Nat)
  | placeActor (actorTypeId : Nat) (pos : Int × Int) (sequenceId objectId notifyThreadId : Nat)
  | startSequenceActor (objectId sequenceId value notifyThreadId : Nat)
  | appearActor (objectId : Nat)
  | disappearActor (objectId : Nat)
  | activateObject (objectId : Nat)
  | deactivateObject (objectId : Nat)
  deriving DecidableEq, Repr

/-- The engine state `_vm` reached by the handlers, together with the two file-level variables
`dsceneId` / `dthreadId` of scriptopcodes_bbdou.cpp and the trace of subsystem calls.
`namedPoints` is the answer of `getNamedPointPosition`, `sceneEnters` the answer of
`enterScene(sceneId, threadId)`; both are arbitrary. -/
structure Engine where
  _stack : ScriptStack
  _blockCounters : BlockCounters
  _threads : List Thread
  _prevSceneId : Nat
  _menuChoiceOfs : Int
  _activeScenes : List Nat
  _dict : List Control
  namedPoints : Nat → Int × Int
  sceneEnters : Nat → Nat → Bool
  dsceneId : Nat
  dthreadId : Nat
  calls : List Call

/-! ## Engine services called by the handlers -/

/-- Modelled from the spec: `notifyThreadId(id)` of the thread manager; the request is recorded. -/
def Engine.notifyThreadId (vm : Engine) (threadId : Nat) : Engine :=
  { vm with calls := vm.calls ++ [Call.notifyThreadId threadId] }

/-- Modelled from the spec: `findThread(id)` of the thread manager, null when no thread of the
table has that id. -/
def Engine.findThread (vm : Engine) (threadId : Nat) : Option Thread :=
  vm._threads.find? (fun thread => thread._threadId == threadId)

/-- Modelled from the spec: `_input->discardAllEvents()`; the request is recorded. -/
def Engine.discardAllEvents (vm : Engine) : Engine :=
  { vm with calls := vm.calls ++ [Call.discardAllEvents] }

/-- Modelled from the spec: the scene manager's current scene, the most recently entered of the
active scenes (0 when none is active). -/
def Engine.getCurrentScene (vm : Engine) : Nat :=
  vm._activeScenes.headD 0

/-- Modelled from the spec: the number of active scenes. -/
def Engine.getActiveScenesCount (vm : Engine) : Nat :=
  vm._activeScenes.length

/-- Modelled from the spec: `exitScene(callerThread)` of the scene manager: the current scene
leaves the active scenes; the request is recorded. -/
def Engine.exitScene (vm : Engine) (threadId : Nat) : Engine :=
  { vm with _activeScenes := vm._activeScenes.tail,
            calls := vm.calls ++ [Call.exitScene threadId] }

/-- Modelled from the spec: `enterScene(id, callerThread) -> bool` of the scene manager: the
request is recorded, the answer is `sceneEnters`, and on success the scene becomes current. -/
def Engine.enterScene (vm : Engine) (sceneId threadId : Nat) : Bool × Engine :=
  (vm.sceneEnters sceneId threadId,
   { vm with _activeScenes :=
               if vm.sceneEnters sceneId threadId then sceneId :: vm._activeScenes
               else vm._activeScenes,
             calls := vm.calls ++ [Call.enterScene sceneId threadId] })

/-- Modelled from the spec: `startAnonScriptThread(codeId, callerThreadId, ctx0, ctx1, ctx2)` of
the thread manager; the request is recorded. -/
def Engine.startAnonScriptThread (vm : Engine)
    (threadId callerThreadId value8 valueC value10 : Nat) : Engine :=
  { vm with calls :=
      vm.calls ++ [Call.startAnonScriptThread threadId callerThreadId value8 valueC value10] }

/-- Modelled from the spec: `getNamedPointPosition(id)`, a named point resolved to a
coordinate. -/
def Engine.getNamedPointPosition (vm : Engine) (namedPointId : Nat) : Int × Int :=
  vm.namedPoints namedPointId

/-- Modelled from the spec: `resolveControl(objectId) -> Control?` of the object directory. -/
def Engine.getObjectControl (vm : Engine) (objectId : Nat) : Option Control :=
  vm._dict.find? (fun control => control._objectId == objectId)

/-- Modelled from the spec: `_controls->placeActor(...)`, the creation of a control: the new
control is entered in the object directory under `objectId`; the request is recorded. -/
def Engine.placeActor (vm : Engine) (actorTypeId : Nat) (pos : Int × Int)
    (sequenceId objectId notifyThreadId : Nat) : Engine :=
  { vm with _dict := ⟨objectId, actorTypeId, sequenceId, pos⟩ :: vm._dict,
            calls := vm.calls ++
              [Call.placeActor actorTypeId pos sequenceId objectId notifyThreadId] }

/-- The `Control::startSequenceActor` request on a control; the request is recorded. -/
def Control.startSequenceActor (control : Control) (sequenceId value notifyThreadId : Nat)
    (vm : Engine) : Engine :=
  { vm with calls := vm.calls ++
      [Call.startSequenceActor control._objectId sequenceId value notifyThreadId] }

/-- The `Control::appearActor` request on a control; the request is recorded. -/
def Control.appearActor (control : Control) (vm : Engine) : Engine :=
  { vm with calls := vm.calls ++ [Call.appearActor control._objectId] }

/-- The `Control::disappearActor` request on a control; the request is recorded. -/
def Control.disappearActor (control : Control) (vm : Engine) : Engine :=
  { vm with calls := vm.calls ++ [Call.disappearActor control._objectId] }

/-- The `Control::activateObject` request on a control; the request is recorded. -/
def Control.activateObject (control : Control) (vm : Engine) : Engine :=
  { vm with calls := vm.calls ++ [Call.activateObject control._objectId] }

/-- The `Control::deactivateObject` request on a control; the request is recorded. -/
def Control.deactivateObject (control : Control) (vm : Engine) : Engine :=
  { vm with calls := vm.calls ++ [Call.deactivateObject control._objectId] }

/-- Modelled from the spec: the dispatcher's program-counter update (the dispatcher is not in
this file): after the call the offset delta of the call context is applied to the position of
the instruction. -/
def resumeAt (ip : Int) (opCall : OpCall) : Int :=
  ip + opCall._deltaOfs

/-! ## Block counters -/

/-- `ScriptOpcodes_BBDOU::opIncBlockCounter` -/
def opIncBlockCounter (index : Int) (vm : Engine) (opCall : OpCall) : Engine × OpCall :=
  let value : Nat := (vm._blockCounters.get index + 1) % 256
  if value ≤ 63 then
    ({ vm with _blockCounters := vm._blockCounters.set index value }, opCall)
  else
    (vm, opCall)

/-- `ScriptOpcodes_BBDOU::opClearBlockCounter` -/
def opClearBlockCounter (index : Int) (vm : Engine) (opCall : OpCall) : Engine × OpCall :=
  ({ vm with _blockCounters := vm._blockCounters.set index 0 }, opCall)

/-- `ScriptOpcodes_BBDOU::opCompareBlockCounter` -/
def opCompareBlockCounter (index compareOp rvalue : Int) (vm : Engine) (opCall : OpCall) :
    Engine × OpCall :=
  let lvalue : Int := toInt16 (vm._blockCounters.get index)
  let compareResult : Bool :=
    if compareOp = 1 then decide (lvalue = rvalue)
    else if compareOp = 2 then decide (lvalue ≠ rvalue)
    else if compareOp = 3 then decide (lvalue < rvalue)
    else if compareOp = 4 then decide (lvalue > rvalue)
    else if compareOp = 5 then decide (lvalue ≥ rvalue)
    else if compareOp = 6 then decide (lvalue ≤ rvalue)
    else false
  ({ vm with _stack := vm._stack.push (if compareResult then 1 else 0) }, opCall)

/-! ## Control flow -/

/-- `ScriptOpcodes_BBDOU::opJump` -/
def opJump (jumpOffs : Int) (vm : Engine) (opCall : OpCall) : Engine × OpCall :=
  (vm, { opCall with _deltaOfs := opCall._deltaOfs + jumpOffs })

/-- `ScriptOpcodes_BBDOU::opIfLte` -/
def opIfLte (rvalue elseJumpOffs : Int) (vm : Engine) (opCall : OpCall) :
    Option (Engine × OpCall) :=
  match vm._stack.pop with
  | none => none
  | some (lvalue, stack) =>
    if ¬ (lvalue ≤ rvalue) then
      some ({ vm with _stack := stack },
            { opCall with _deltaOfs := opCall._deltaOfs + elseJumpOffs })
    else
      some ({ vm with _stack := stack }, opCall)

/-- `ScriptOpcodes_BBDOU::opNot` -/
def opNot (vm : Engine) (opCall : OpCall) : Option (Engine × OpCall) :=
  match vm._stack.pop with
  | none => none
  | some (value, stack) =>
    some ({ vm with _stack := stack.push (if value ≠ 0 then 0 else 1) }, opCall)

/-- `ScriptOpcodes_BBDOU::opAnd` -/
def opAnd (vm : Engine) (opCall : OpCall) : Option (Engine × OpCall) :=
  match vm._stack.pop with
  | none => none
  | some (value1, stack1) =>
    match stack1.pop with
    | none => none
    | some (value2, stack2) =>
      some ({ vm with _stack := stack2.push (Int.land value1 value2) }, opCall)

/-- `ScriptOpcodes_BBDOU::opOr` -/
def opOr (vm : Engine) (opCall : OpCall) : Option (Engine × OpCall) :=
  match vm._stack.pop with
  | none => none
  | some (value1, stack1) =>
    match stack1.pop with
    | none => none
    | some (value2, stack2) =>
      some ({ vm with _stack := stack2.push (Int.lor value1 value2) }, opCall)

/-! ## Menu -/

/-- `ScriptOpcodes_BBDOU::opAddMenuChoice` -/
def opAddMenuChoice (jumpOffs endMarker : Int) (vm : Engine) (opCall : OpCall) :
    Engine × OpCall :=
  ({ vm with _stack := (vm._stack.push endMarker).push jumpOffs }, opCall)

/-- The loop `do { pop(); } while (pop() == 0);` of `opDisplayMenu` on the stack contents: each
round pops two values and goes on while the second one is 0; a pop of the empty stack is a
fault. -/
def popMenuChoices : List Int → Option (List Int)
  | [] => none
  | [_] => none
  | _ :: endMarker :: rest => if endMarker = 0 then popMenuChoices rest else some rest

/-- `ScriptOpcodes_BBDOU::opDisplayMenu` -/
def opDisplayMenu (unk1 : Int) (menuId unk2 : Nat) (vm : Engine) (opCall : OpCall) :
    Option (Engine × OpCall) :=
  match popMenuChoices vm._stack._stack with
  | none => none
  | some rest =>
    some (({ vm with _stack := ⟨rest⟩ }).notifyThreadId opCall._callerThreadId, opCall)

/-! ## Threads and scenes -/

/-- `ScriptOpcodes_BBDOU::opNotifyThreadId` -/
def opNotifyThreadId (vm : Engine) (opCall : OpCall) : Option (Engine × OpCall) :=
  match vm.findThread opCall._callerThreadId with
  | none => none
  | some thread =>
    if ¬ (thread._notifyFlags &&& 1 ≠ 0) then
      some (vm.notifyThreadId thread._callingThreadId, opCall)
    else
      some (vm, opCall)

/-- `ScriptOpcodes_BBDOU::opEnterScene`; the active-scene information fetched when
`getActiveScenesCount() > 0` is a read whose value the handler does not use. -/
def opEnterScene (sceneId : Nat) (vm : Engine) (opCall : OpCall) : Engine × OpCall :=
  match vm.enterScene sceneId opCall._callerThreadId with
  | (false, vm1) => (vm1, { opCall with _result := ThreadStatus.kTSTerminate })
  | (true, vm1) => (vm1, opCall)

/-- Initial value of the file-level variable `dsceneId`. -/
def dsceneIdInit : Nat := 0x0001001A

/-- Initial value of the file-level variable `dthreadId`. -/
def dthreadIdInit : Nat := 0x0002001F

/-- `ScriptOpcodes_BBDOU::opChangeScene`; the block `if (dsceneId) { ... }` replaces both
operands by the file-level variables and clears `dsceneId`. -/
def opChangeScene (sceneId threadId : Nat) (scriptThread : ScriptThread) (vm : Engine)
    (opCall : OpCall) : Engine × OpCall :=
  let sceneId1 := if vm.dsceneId ≠ 0 then vm.dsceneId else sceneId
  let threadId1 := if vm.dsceneId ≠ 0 then vm.dthreadId else threadId
  let vm1 := if vm.dsceneId ≠ 0 then { vm with dsceneId := 0 } else vm
  let vm2 := vm1.discardAllEvents
  let vm3 := { vm2 with _prevSceneId := vm2.getCurrentScene }
  let vm4 := vm3.exitScene opCall._callerThreadId
  let vm5 := (vm4.enterScene sceneId1 opCall._callerThreadId).2
  (vm5.startAnonScriptThread threadId1 0
    scriptThread._value8 scriptThread._valueC scriptThread._value10, opCall)

/-! ## Actors and objects -/

/-- `ScriptOpcodes_BBDOU::opAppearActor` -/
def opAppearActor (objectId : Nat) (vm : Engine) (opCall : OpCall) : Option (Engine × OpCall) :=
  match vm.getObjectControl objectId with
  | none =>
    let pos := vm.getNamedPointPosition 0x70023
    let vm1 := vm.placeActor 0x50001 pos 0x60001 objectId 0
    match vm1.getObjectControl objectId with
    | none => none
    | some control =>
      some (control.appearActor (control.startSequenceActor 0x60001 2 0 vm1), opCall)
  | some control => some (control.appearActor vm, opCall)

/-- `ScriptOpcodes_BBDOU::opDisappearActor` -/
def opDisappearActor (objectId : Nat) (vm : Engine) (opCall : OpCall) :
    Option (Engine × OpCall) :=
  match vm.getObjectControl objectId with
  | none => none
  | some control => some (control.disappearActor vm, opCall)

/-- `ScriptOpcodes_BBDOU::opActivateObject` -/
def opActivateObject (objectId : Nat) (vm : Engine) (opCall : OpCall) :
    Option (Engine × OpCall) :=
  match vm.getObjectControl objectId with
  | none => some (vm, opCall)
  | some control => some (control.activateObject vm, opCall)

/-- `ScriptOpcodes_BBDOU::opDeactivateObject` -/
def opDeactivateObject (objectId : Nat) (vm : Engine) (opCall : OpCall) :
    Option (Engine × OpCall) :=
  match vm.getObjectControl objectId with
  | none => none
  | some control => some (control.deactivateObject vm, opCall)

/-! ## Concrete states -/

/-- An engine state at program start: empty stack, all counters 0, no thread, no active scene,
empty object directory, `dsceneId` / `dthreadId` at their initial values. -/
def startEngine : Engine :=
  { _stack := ⟨[]⟩
    _blockCounters := ⟨fun _ => 0⟩
    _threads := []
    _prevSceneId := 0
    _menuChoiceOfs := 0
    _activeScenes := []
    _dict := []
    namedPoints := fun _ => (0, 0)
    sceneEnters := fun _ _ => true
    dsceneId := dsceneIdInit
    dthreadId := dthreadIdInit
    calls := [] }

/-- A call context issued by thread 7 for caller thread 9, outcome continue. -/
def sampleCall : OpCall :=
  { _threadId := 7, _callerThreadId := 9, _deltaOfs := 6, _code := 100,
    _result := ThreadStatus.kTSRun }

/-- A handler applied `n` times in succession to the same call context. -/
def callTimes (op : Engine → OpCall → Engine × OpCall) : Nat → Engine → OpCall → Engine × OpCall
  | 0, vm, opCall => (vm, opCall)
  | n + 1, vm, opCall => op (callTimes op n vm opCall).1 (callTimes op n vm opCall).2

/-! ## Opcode table -/

/-- The member functions bound by `initOpcodes`, one constructor per handler. -/
inductive Handler where
  | opSuspend
  | opYield
  | opTerminate
  | opJump
  | opStartScriptThread
  | opStartTempScriptThread
  | opStartTimerThread
  | opNotifyThreadId
  | opSetThreadSceneId
  | opEndTalkThreads
  | opLoadResource
  | opUnloadResource
  | opEnterScene
  | opChangeScene
  | opStartModalScene
  | opExitModalScene
  | opEnterCloseUpScene
  | opExitCloseUpScene
  | opPanCenterObject
  | opPanToObject
  | opPanToNamedPoint
  | opPanToPoint
  | opPanStop
  | opSetDisplay
  | opIncBlockCounter
  | opClearBlockCounter
  | opSetProperty
  | opPlaceActor
  | opFaceActor
  | opFaceActorToObject
  | opStartSequenceActor
  | opStartMoveActor
  | opSetActorToNamedPoint
  | opStartTalkThread
  | opAppearActor
  | opDisappearActor
  | opActivateObject
  | opDeactivateObject
  | opSetDefaultSequence
  | opSetSelectSfx
  | opSetMoveSfx
  | opSetDenySfx
  | opSetAdjustUpSfx
  | opSetAdjustDnSfx
  | opStartSound
  | opStopSound
  | opStartMusic
  | opStopMusic
  | opStackPushRandom
  | opIfLte
  | opAddMenuChoice
  | opDisplayMenu
  | opSwitchMenuChoice
  | opResetGame
  | opDeactivateButton
  | opActivateButton
  | opJumpIf
  | opIsPrevSceneId
  | opIsCurrentSceneId
  | opIsActiveSceneId
  | opNot
  | opAnd
  | opOr
  | opGetProperty
  | opCompareBlockCounter
  | opDebug126
  | opPlayVideo
  | opStackPop
  | opStackDup
  | opLoadSpecialCodeModule
  | opRunSpecialCode
  | opStopActor
  | opSetActorUsePan
  | opStartAbortableThread
  | opKillThread
  | opSetSceneIdThreadId
  | opStackPush0
  | opSetFontId
  | opAddMenuKey
  | opChangeSceneAll
  deriving DecidableEq, Repr

/-- The debug name `#func` that the `OPCODE` macro stores next to a handler. -/
def Handler.debugName : Handler → String
  | .opSuspend => "opSuspend"
  | .opYield => "opYield"
  | .opTerminate => "opTerminate"
  | .opJump => "opJump"
  | .opStartScriptThread => "opStartScriptThread"
  | .opStartTempScriptThread => "opStartTempScriptThread"
  | .opStartTimerThread => "opStartTimerThread"
  | .opNotifyThreadId => "opNotifyThreadId"
  | .opSetThreadSceneId => "opSetThreadSceneId"
  | .opEndTalkThreads => "opEndTalkThreads"
  | .opLoadResource => "opLoadResource"
  | .opUnloadResource => "opUnloadResource"
  | .opEnterScene => "opEnterScene"
  | .opChangeScene => "opChangeScene"
  | .opStartModalScene => "opStartModalScene"
  | .opExitModalScene => "opExitModalScene"
  | .opEnterCloseUpScene => "opEnterCloseUpScene"
  | .opExitCloseUpScene => "opExitCloseUpScene"
  | .opPanCenterObject => "opPanCenterObject"
  | .opPanToObject => "opPanToObject"
  | .opPanToNamedPoint => "opPanToNamedPoint"
  | .opPanToPoint => "opPanToPoint"
  | .opPanStop => "opPanStop"
  | .opSetDisplay => "opSetDisplay"
  | .opIncBlockCounter => "opIncBlockCounter"
  | .opClearBlockCounter => "opClearBlockCounter"
  | .opSetProperty => "opSetProperty"
  | .opPlaceActor => "opPlaceActor"
  | .opFaceActor => "opFaceActor"
  | .opFaceActorToObject => "opFaceActorToObject"
  | .opStartSequenceActor => "opStartSequenceActor"
  | .opStartMoveActor => "opStartMoveActor"
  | .opSetActorToNamedPoint => "opSetActorToNamedPoint"
  | .opStartTalkThread => "opStartTalkThread"
  | .opAppearActor => "opAppearActor"
  | .opDisappearActor => "opDisappearActor"
  | .opActivateObject => "opActivateObject"
  | .opDeactivateObject => "opDeactivateObject"
  | .opSetDefaultSequence => "opSetDefaultSequence"
  | .opSetSelectSfx => "opSetSelectSfx"
  | .opSetMoveSfx => "opSetMoveSfx"
  | .opSetDenySfx => "opSetDenySfx"
  | .opSetAdjustUpSfx => "opSetAdjustUpSfx"
  | .opSetAdjustDnSfx => "opSetAdjustDnSfx"
  | .opStartSound => "opStartSound"
  | .opStopSound => "opStopSound"
  | .opStartMusic => "opStartMusic"
  | .opStopMusic => "opStopMusic"
  | .opStackPushRandom => "opStackPushRandom"
  | .opIfLte => "opIfLte"
  | .opAddMenuChoice => "opAddMenuChoice"
  | .opDisplayMenu => "opDisplayMenu"
  | .opSwitchMenuChoice => "opSwitchMenuChoice"
  | .opResetGame => "opResetGame"
  | .opDeactivateButton => "opDeactivateButton"
  | .opActivateButton => "opActivateButton"
  | .opJumpIf => "opJumpIf"
  | .opIsPrevSceneId => "opIsPrevSceneId"
  | .opIsCurrentSceneId => "opIsCurrentSceneId"
  | .opIsActiveSceneId => "opIsActiveSceneId"
  | .opNot => "opNot"
  | .opAnd => "opAnd"
  | .opOr => "opOr"
  | .opGetProperty => "opGetProperty"
  | .opCompareBlockCounter => "opCompareBlockCounter"
  | .opDebug126 => "opDebug126"
  | .opPlayVideo => "opPlayVideo"
  | .opStackPop => "opStackPop"
  | .opStackDup => "opStackDup"
  | .opLoadSpecialCodeModule => "opLoadSpecialCodeModule"
  | .opRunSpecialCode => "opRunSpecialCode"
  | .opStopActor => "opStopActor"
  | .opSetActorUsePan => "opSetActorUsePan"
  | .opStartAbortableThread => "opStartAbortableThread"
  | .opKillThread => "opKillThread"
  | .opSetSceneIdThreadId => "opSetSceneIdThreadId"
  | .opStackPush0 => "opStackPush0"
  | .opSetFontId => "opSetFontId"
  | .opAddMenuKey => "opAddMenuKey"
  | .opChangeSceneAll => "opChangeSceneAll"

/-- The two arrays `_opcodes[256]` and `_opcodeNames[256]` of `ScriptOpcodes`; a null entry of
`_opcodes` is `none`. -/
structure ScriptOpcodes where
  _opcodes : Nat → Option Handler
  _opcodeNames : Nat → String

/-- The body `_opcodes[i] = 0` of the clearing loop of `initOpcodes`. -/
def clearOpcode (table : ScriptOpcodes) (i : Nat) : ScriptOpcodes :=
  { table with _opcodes := fun j => if j = i then none else table._opcodes j }

/-- The macro `OPCODE(op, func)`: `_opcodes[op] = new ScriptOpcodeI(this, &func);
_opcodeNames[op] = #func;`. -/
def OPCODE (op : Nat) (func : Handler) (table : ScriptOpcodes) : ScriptOpcodes :=
  { _opcodes := fun j => if j = op then some func else table._opcodes j
    _opcodeNames := fun j => if j = op then func.debugName else table._opcodeNames j }

/-- The `OPCODE(op, func)` lines of `initOpcodes`, in source order. -/
def registrations : List (Nat × Handler) :=
  [
   (2, Handler.opSuspend),
   (3, Handler.opYield),
   (4, Handler.opTerminate),
   (5, Handler.opJump),
   (6, Handler.opStartScriptThread),
   (8, Handler.opStartTempScriptThread),
   (9, Handler.opStartTimerThread),
   (12, Handler.opNotifyThreadId),
   (14, Handler.opSetThreadSceneId),
   (15, Handler.opEndTalkThreads),
   (16, Handler.opLoadResource),
   (17, Handler.opUnloadResource),
   (20, Handler.opEnterScene),
   (25, Handler.opChangeScene),
   (26, Handler.opStartModalScene),
   (27, Handler.opExitModalScene),
   (30, Handler.opEnterCloseUpScene),
   (31, Handler.opExitCloseUpScene),
   (32, Handler.opPanCenterObject),
   (34, Handler.opPanToObject),
   (35, Handler.opPanToNamedPoint),
   (36, Handler.opPanToPoint),
   (37, Handler.opPanStop),
   (39, Handler.opSetDisplay),
   (42, Handler.opIncBlockCounter),
   (43, Handler.opClearBlockCounter),
   (45, Handler.opSetProperty),
   (46, Handler.opPlaceActor),
   (47, Handler.opFaceActor),
   (48, Handler.opFaceActorToObject),
   (49, Handler.opStartSequenceActor),
   (51, Handler.opStartMoveActor),
   (53, Handler.opSetActorToNamedPoint),
   (56, Handler.opStartTalkThread),
   (57, Handler.opAppearActor),
   (58, Handler.opDisappearActor),
   (60, Handler.opActivateObject),
   (61, Handler.opDeactivateObject),
   (62, Handler.opSetDefaultSequence),
   (63, Handler.opSetSelectSfx),
   (64, Handler.opSetMoveSfx),
   (65, Handler.opSetDenySfx),
   (66, Handler.opSetAdjustUpSfx),
   (67, Handler.opSetAdjustDnSfx),
   (71, Handler.opStartSound),
   (74, Handler.opStopSound),
   (75, Handler.opStartMusic),
   (76, Handler.opStopMusic),
   (78, Handler.opStackPushRandom),
   (79, Handler.opIfLte),
   (80, Handler.opAddMenuChoice),
   (81, Handler.opDisplayMenu),
   (82, Handler.opSwitchMenuChoice),
   (84, Handler.opResetGame),
   (87, Handler.opDeactivateButton),
   (88, Handler.opActivateButton),
   (103, Handler.opJumpIf),
   (104, Handler.opIsPrevSceneId),
   (105, Handler.opIsCurrentSceneId),
   (106, Handler.opIsActiveSceneId),
   (107, Handler.opNot),
   (108, Handler.opAnd),
   (109, Handler.opOr),
   (110, Handler.opGetProperty),
   (111, Handler.opCompareBlockCounter),
   (126, Handler.opDebug126),
   (144, Handler.opPlayVideo),
   (146, Handler.opStackPop),
   (147, Handler.opStackDup),
   (148, Handler.opLoadSpecialCodeModule),
   (150, Handler.opRunSpecialCode),
   (160, Handler.opStopActor),
   (161, Handler.opSetActorUsePan),
   (168, Handler.opStartAbortableThread),
   (169, Handler.opKillThread),
   (175, Handler.opSetSceneIdThreadId),
   (176, Handler.opStackPush0),
   (177, Handler.opSetFontId),
   (178, Handler.opAddMenuKey),
   (179, Handler.opChangeSceneAll)]

/-- `ScriptOpcodes_BBDOU::initOpcodes`: the loop `for (uint i = 0; i < 256; ++i)` clears every
slot, then the `OPCODE` lines run in order. -/
def initOpcodes (table : ScriptOpcodes) : ScriptOpcodes :=
  registrations.foldl (fun t r => OPCODE r.1 r.2 t)
    ((List.range 256).foldl clearOpcode table)

/-- A table as it may be before `initOpcodes`: every slot holds some handler and name. -/
def staleOpcodes : ScriptOpcodes :=
  { _opcodes := fun _ => some Handler.opJump
    _opcodeNames := fun _ => "stale" }

/-! ## Menu choice -/

/-- `ScriptOpcodes_BBDOU::opSwitchMenuChoice`; its first statement stores 88 in
`_vm->_menuChoiceOfs` (comment `DEBUG Chose "Start game"`). -/
def opSwitchMenuChoice (vm : Engine) (opCall : OpCall) : Engine × OpCall :=
  let vm1 : Engine := { vm with _menuChoiceOfs := 88 }
  (vm1, { opCall with _deltaOfs := opCall._deltaOfs + vm1._menuChoiceOfs })

/-- Successive `opAddMenuChoice` calls, one per choice `(jumpOffs, endMarker)`, first choice
first. -/
def addMenuChoices : List (Int × Int) → Engine → OpCall → Engine
  | [], vm, _ => vm
  | choice :: later, vm, opCall =>
    addMenuChoices later (opAddMenuChoice choice.1 choice.2 vm opCall).1 opCall

/-- The values that successive `opAddMenuChoice` calls leave on the stack, top first: the pair
of the last choice on top, in each pair jumpOffs above endMarker. -/
def pushedChoices : List (Int × Int) → List Int
  | [] => []
  | choice :: later => pushedChoices later ++ [toInt16 choice.1, toInt16 choice.2]

/-! ## Lemmas -/

theorem toInt16_of_range (x : Int) (h1 : -32768 ≤ x) (h2 : x < 32768) : toInt16 x = x := by
  unfold toInt16
  omega

theorem get_set_same (bc : BlockCounters) (index : Int) (value : Nat) :
    (bc.set index value).get index = value % 256 := by
  simp [BlockCounters.get, BlockCounters.set]

theorem opIncBlockCounter_get (index : Int) (vm : Engine) (opCall : OpCall)
    (h : vm._blockCounters.get index ≤ 63) :
    (opIncBlockCounter index vm opCall).1._blockCounters.get index
      = min (vm._blockCounters.get index + 1) 63 := by
  unfold opIncBlockCounter
  by_cases hlt : vm._blockCounters.get index < 63
  · have hv : (vm._blockCounters.get index + 1) % 256 = vm._blockCounters.get index + 1 := by
      omega
    simp only [hv]
    rw [if_pos (by omega)]
    show (vm._blockCounters.set index (vm._blockCounters.get index + 1)).get index
      = min (vm._blockCounters.get index + 1) 63
    rw [get_set_same]
    omega
  · have hv : (vm._blockCounters.get index + 1) % 256 = 64 := by omega
    simp only [hv]
    rw [if_neg (by omega)]
    show vm._blockCounters.get index = min (vm._blockCounters.get index + 1) 63
    omega

theorem callTimes_opIncBlockCounter_get (index : Int) (vm : Engine) (opCall : OpCall)
    (h : vm._blockCounters.get index ≤ 63) (n : Nat) :
    (callTimes (opIncBlockCounter index) n vm opCall).1._blockCounters.get index
      = min (vm._blockCounters.get index + n) 63 := by
  induction n with
  | zero => simp [callTimes]; omega
  | succ n ih =>
    simp only [callTimes]
    rw [opIncBlockCounter_get _ _ _ (by rw [ih]; omega), ih]
    omega

/-- One round of the loop of `opDisplayMenu`, in terms of `ScriptStack.pop`: two pops, and
another round when the second popped value is 0. -/
theorem popMenuChoices_eq_pops (s : ScriptStack) :
    popMenuChoices s._stack
      = match s.pop with
        | none => none
        | some (_, s1) =>
          match s1.pop with
          | none => none
          | some (endMarker, s2) =>
            if endMarker = 0 then popMenuChoices s2._stack else some s2._stack := by
  rcases s with ⟨l⟩
  match l with
  | [] => rfl
  | [_] => rfl
  | _ :: _ :: _ => rfl

/-- The bitwise AND of two `int16` values is an `int16` value. -/
theorem land_int16_range (a b : Int) (ha1 : -32768 ≤ a) (ha2 : a < 32768)
    (hb1 : -32768 ≤ b) (hb2 : b < 32768) :
    -32768 ≤ Int.land a b ∧ Int.land a b < 32768 := by
  cases a with
  | ofNat m =>
    cases b with
    | ofNat n =>
      have hm : m < 2 ^ 15 := by simp at ha2; omega
      have hn : n < 2 ^ 15 := by simp at hb2; omega
      have h : m &&& n < 2 ^ 15 := Nat.and_lt_two_pow m hn
      simp only [Int.land, Int.negSucc_eq]
      omega
    | negSucc n =>
      have hm : m < 2 ^ 15 := by simp at ha2; omega
      have hn : n < 2 ^ 15 := by simp [Int.negSucc_eq] at hb1; omega
      have h : Nat.ldiff m n < 2 ^ 15 := Nat.bitwise_lt_two_pow hm hn
      simp only [Int.land, Int.negSucc_eq]
      omega
  | negSucc m =>
    cases b with
    | ofNat n =>
      have hm : m < 2 ^ 15 := by simp [Int.negSucc_eq] at ha1; omega
      have hn : n < 2 ^ 15 := by simp at hb2; omega
      have h : Nat.ldiff n m < 2 ^ 15 := Nat.bitwise_lt_two_pow hn hm
      simp only [Int.land, Int.negSucc_eq]
      omega
    | negSucc n =>
      have hm : m < 2 ^ 15 := by simp [Int.negSucc_eq] at ha1; omega
      have hn : n < 2 ^ 15 := by simp [Int.negSucc_eq] at hb1; omega
      have h : m ||| n < 2 ^ 15 := Nat.or_lt_two_pow hm hn
      simp only [Int.land, Int.negSucc_eq]
      omega

/-- The bitwise OR of two `int16` values is an `int16` value. -/
theorem lor_int16_range (a b : Int) (ha1 : -32768 ≤ a) (ha2 : a < 32768)
    (hb1 : -32768 ≤ b) (hb2 : b < 32768) :
    -32768 ≤ Int.lor a b ∧ Int.lor a b < 32768 := by
  cases a with
  | ofNat m =>
    cases b with
    | ofNat n =>
      have hm : m < 2 ^ 15 := by simp at ha2; omega
      have hn : n < 2 ^ 15 := by simp at hb2; omega
      have h : m ||| n < 2 ^ 15 := Nat.or_lt_two_pow hm hn
      simp only [Int.lor, Int.negSucc_eq]
      omega
    | negSucc n =>
      have hm : m < 2 ^ 15 := by simp at ha2; omega
      have hn : n < 2 ^ 15 := by simp [Int.negSucc_eq] at hb1; omega
      have h : Nat.ldiff n m < 2 ^ 15 := Nat.bitwise_lt_two_pow hn hm
      simp only [Int.lor, Int.negSucc_eq]
      omega
  | negSucc m =>
    cases b with
    | ofNat n =>
      have hm : m < 2 ^ 15 := by simp [Int.negSucc_eq] at ha1; omega
      have hn : n < 2 ^ 15 := by simp at hb2; omega
      have h : Nat.ldiff m n < 2 ^ 15 := Nat.bitwise_lt_two_pow hm hn
      simp only [Int.lor, Int.negSucc_eq]
      omega
    | negSucc n =>
      have hm : m < 2 ^ 15 := by simp [Int.negSucc_eq] at ha1; omega
      have hn : n < 2 ^ 15 := by simp [Int.negSucc_eq] at hb1; omega
      have h : m &&& n < 2 ^ 15 := Nat.and_lt_two_pow m hn
      simp only [Int.lor, Int.negSucc_eq]
      omega

/-- The clearing loop leaves a null entry in every slot below its bound. -/
theorem clearLoop_opcodes (n : Nat) (table : ScriptOpcodes) (i : Nat) (hi : i < n) :
    ((List.range n).foldl clearOpcode table)._opcodes i = none := by
  induction n with
  | zero => omega
  | succ n ih =>
    rw [List.range_succ, List.foldl_append]
    simp only [List.foldl_cons, List.foldl_nil, clearOpcode]
    by_cases h : i = n
    · simp [h]
    · simp only [h, if_false]
      exact ih (by omega)

/-- A slot that no `OPCODE` line names keeps its content. -/
theorem foldl_OPCODE_other (regs : List (Nat × Handler)) (table : ScriptOpcodes) (i : Nat)
    (hi : i ∉ regs.map Prod.fst) :
    (regs.foldl (fun t r => OPCODE r.1 r.2 t) table)._opcodes i = table._opcodes i
      ∧ (regs.foldl (fun t r => OPCODE r.1 r.2 t) table)._opcodeNames i
          = table._opcodeNames i := by
  induction regs generalizing table with
  | nil => exact ⟨rfl, rfl⟩
  | cons r rest ih =>
    simp only [List.map_cons, List.mem_cons, not_or] at hi
    simp only [List.foldl_cons]
    have h := ih (OPCODE r.1 r.2 table) hi.2
    rw [h.1, h.2]
    simp [OPCODE, hi.1]

/-- When no opcode is named twice, the slot of an `OPCODE` line holds what that line wrote. -/
theorem foldl_OPCODE_registered (regs : List (Nat × Handler)) (table : ScriptOpcodes)
    (hnodup : (regs.map Prod.fst).Nodup) (r : Nat × Handler) (hr : r ∈ regs) :
    (regs.foldl (fun t r => OPCODE r.1 r.2 t) table)._opcodes r.1 = some r.2
      ∧ (regs.foldl (fun t r => OPCODE r.1 r.2 t) table)._opcodeNames r.1
          = r.2.debugName := by
  induction regs generalizing table with
  | nil => simp at hr
  | cons r0 rest ih =>
    simp only [List.map_cons, List.nodup_cons] at hnodup
    simp only [List.foldl_cons]
    rcases List.mem_cons.mp hr with h | h
    · subst h
      have h := foldl_OPCODE_other rest (OPCODE r.1 r.2 table) r.1 hnodup.1
      rw [h.1, h.2]
      simp [OPCODE]
    · exact ih (OPCODE r0.1 r0.2 table) hnodup.2 h

/-- No opcode value is named by two `OPCODE` lines. -/
theorem registrations_nodup : (registrations.map Prod.fst).Nodup := by
  decide

/-- Choices with endMarker 0 on top of the stack are popped by the loop of `opDisplayMenu`,
which then goes on with what lies below them. -/
theorem popMenuChoices_pushedChoices (later : List (Int × Int))
    (hlater : ∀ choice ∈ later, choice.2 = 0) (below : List Int) :
    popMenuChoices (pushedChoices later ++ below) = popMenuChoices below := by
  induction later generalizing below with
  | nil => rfl
  | cons choice rest ih =>
    have h0 : choice.2 = 0 := hlater choice (List.mem_cons_self _ _)
    have hrest : ∀ c ∈ rest, c.2 = 0 := fun c hc => hlater c (List.mem_cons_of_mem _ hc)
    simp only [pushedChoices, List.append_assoc]
    rw [ih hrest]
    have hz : toInt16 0 = 0 := by decide
    simp [h0, hz, popMenuChoices]

/-- Successive `opAddMenuChoice` calls change the stack only. -/
theorem addMenuChoices_eq (choices : List (Int × Int)) (vm : Engine) (opCall : OpCall) :
    addMenuChoices choices vm opCall
      = { vm with _stack := ⟨pushedChoices choices ++ vm._stack._stack⟩ } := by
  induction choices generalizing vm with
  | nil => rfl
  | cons choice rest ih =>
    simp only [addMenuChoices, pushedChoices]
    rw [ih]
    simp [opAddMenuChoice, ScriptStack.push]

theorem pushedChoices_length (choices : List (Int × Int)) :
    (pushedChoices choices).length = 2 * choices.length := by
  induction choices with
  | nil => rfl
  | cons choice rest ih =>
    simp only [pushedChoices, List.length_append, List.length_cons, List.length_nil, ih]
    omega

/-! ## Claims -/

/-- C1: on a counter whose stored value `v` is at most 63, `opIncBlockCounter` leaves `v + 1`
when `v < 63` and 63 when `v = 63`; after any number `n` of successive calls the counter holds
`min (v + n) 63`, hence never more than 63, and a counter at 63 stays at 63. -/
theorem opIncBlockCounter_never_exceeds_63 (index : Int) (vm : Engine) (opCall : OpCall)
    (v : Nat) (hv : vm._blockCounters._blockCounters index = v) (h63 : v ≤ 63) :
    (opIncBlockCounter index vm opCall).1._blockCounters.get index
        = (if v < 63 then v + 1 else 63)
      ∧ (∀ n : Nat,
          (callTimes (opIncBlockCounter index) n vm opCall).1._blockCounters.get index
            = min (v + n) 63)
      ∧ (∀ n : Nat,
          (callTimes (opIncBlockCounter index) n vm opCall).1._blockCounters.get index ≤ 63)
      ∧ (v = 63 → ∀ n : Nat,
          (callTimes (opIncBlockCounter index) n vm opCall).1._blockCounters.get index = 63) := by
  have hget : vm._blockCounters.get index = v := by
    simp only [BlockCounters.get, hv]; omega
  have hle : vm._blockCounters.get index ≤ 63 := by omega
  have hn := callTimes_opIncBlockCounter_get index vm opCall hle
  refine ⟨?_, ?_, ?_, ?_⟩
  · rw [opIncBlockCounter_get index vm opCall hle, hget]
    split <;> omega
  · intro n; rw [hn n, hget]
  · intro n; rw [hn n]; omega
  · intro h n; rw [hn n, hget]; omega

/-- Witness of C1 on a store whose counters are all 63: one more call, and seven more calls,
leave counter 5 at 63. -/
theorem opIncBlockCounter_never_exceeds_63_witness :
    (opIncBlockCounter 5 { startEngine with _blockCounters := ⟨fun _ => 63⟩ }
        sampleCall).1._blockCounters.get 5 = 63
      ∧ (callTimes (opIncBlockCounter 5) 7 { startEngine with _blockCounters := ⟨fun _ => 63⟩ }
          sampleCall).1._blockCounters.get 5 = 63 :=
  ⟨(opIncBlockCounter_never_exceeds_63 5 { startEngine with _blockCounters := ⟨fun _ => 63⟩ }
      sampleCall 63 rfl (by decide)).1,
   (opIncBlockCounter_never_exceeds_63 5 { startEngine with _blockCounters := ⟨fun _ => 63⟩ }
      sampleCall 63 rfl (by decide)).2.2.2 rfl 7⟩

/-- C2: `opCompareBlockCounter` pushes exactly one value on the stack, which is 1 exactly when
the comparison code is 1..6 and the counter value is ==, !=, <, >, >=, <= the immediate
`rvalue` respectively, and 0 otherwise (in particular for every code outside 1..6); nothing
else of the engine state, the counters included, and nothing of the call context changes. -/
theorem opCompareBlockCounter_pushes_relation (index compareOp rvalue : Int) (vm : Engine)
    (opCall : OpCall) :
    opCompareBlockCounter index compareOp rvalue vm opCall
      = ({ vm with _stack := ⟨(if (compareOp = 1 ∧ (vm._blockCounters.get index : Int) = rvalue)
                                  ∨ (compareOp = 2 ∧ (vm._blockCounters.get index : Int) ≠ rvalue)
                                  ∨ (compareOp = 3 ∧ (vm._blockCounters.get index : Int) < rvalue)
                                  ∨ (compareOp = 4 ∧ (vm._blockCounters.get index : Int) > rvalue)
                                  ∨ (compareOp = 5 ∧ (vm._blockCounters.get index : Int) ≥ rvalue)
                                  ∨ (compareOp = 6 ∧ (vm._blockCounters.get index : Int) ≤ rvalue)
                                then 1 else 0) :: vm._stack._stack⟩ }, opCall)
      ∧ (opCompareBlockCounter index compareOp rvalue vm opCall).1._blockCounters
          = vm._blockCounters := by
  have hlt : vm._blockCounters.get index < 256 := by
    unfold BlockCounters.get; omega
  have hl : toInt16 (vm._blockCounters.get index) = vm._blockCounters.get index :=
    toInt16_of_range _ (by omega) (by omega)
  have h0 : toInt16 0 = 0 := by decide
  have h1 : toInt16 1 = 1 := by decide
  refine ⟨?_, rfl⟩
  unfold opCompareBlockCounter
  simp only [hl, ScriptStack.push]
  by_cases c1 : compareOp = 1
  · subst c1; by_cases h : (vm._blockCounters.get index : Int) = rvalue <;> simp [h, h0, h1]
  by_cases c2 : compareOp = 2
  · subst c2; by_cases h : (vm._blockCounters.get index : Int) = rvalue <;> simp [h, h0, h1]
  by_cases c3 : compareOp = 3
  · subst c3; by_cases h : (vm._blockCounters.get index : Int) < rvalue <;> simp [h, h0, h1]
  by_cases c4 : compareOp = 4
  · subst c4; by_cases h : rvalue < (vm._blockCounters.get index : Int) <;> simp [h, h0, h1]
  by_cases c5 : compareOp = 5
  · subst c5; by_cases h : rvalue ≤ (vm._blockCounters.get index : Int) <;> simp [h, h0, h1]
  by_cases c6 : compareOp = 6
  · subst c6; by_cases h : (vm._blockCounters.get index : Int) ≤ rvalue <;> simp [h, h0, h1]
  simp [c1, c2, c3, c4, c5, c6, h0]

/-- C3, as stated, fails: from the empty stack, after `push(5)` and `push(3)`, `opIfLte` with
`rvalue = 3` and `elseJumpOffs = 4` does not leave `deltaOfs` 4 larger than on entry. -/
theorem opIfLte_scenario_jump_not_taken :
    (opIfLte 3 4 { startEngine with _stack := (startEngine._stack.push 5).push 3 }
        sampleCall).map (fun r => r.2._deltaOfs) = some sampleCall._deltaOfs
      ∧ ¬ ((opIfLte 3 4 { startEngine with _stack := (startEngine._stack.push 5).push 3 }
            sampleCall).map (fun r => r.2._deltaOfs) = some (sampleCall._deltaOfs + 4)) := by
  decide

/-- C3, amended: from any stack, after `push(5)` and `push(3)`, `opIfLte` with `rvalue = 3` and
`elseJumpOffs = 4` pops the 3 (the stack top), finds `3 <= 3` and does not jump: the call
context, `deltaOfs` included, is as it was right after operand decoding, and the 5 is still on
the stack. -/
theorem opIfLte_scenario_falls_through (vm : Engine) (opCall : OpCall) :
    opIfLte 3 4 { vm with _stack := (vm._stack.push 5).push 3 } opCall
      = some ({ vm with _stack := vm._stack.push 5 }, opCall) := by
  rfl

/-- C4: `opJump` adds its operand to `deltaOfs` and does nothing else: outcome, code pointer,
thread ids and the whole engine state (the stack included) are unchanged, so decoding resumes
`jumpOffs` past the position it would have resumed at without the jump. -/
theorem opJump_adds_offset (jumpOffs : Int) (vm : Engine) (opCall : OpCall) (ip : Int) :
    (opJump jumpOffs vm opCall).2._deltaOfs = opCall._deltaOfs + jumpOffs
      ∧ resumeAt ip (opJump jumpOffs vm opCall).2 = resumeAt ip opCall + jumpOffs
      ∧ (opJump jumpOffs vm opCall).2._result = opCall._result
      ∧ (opJump jumpOffs vm opCall).2._code = opCall._code
      ∧ (opJump jumpOffs vm opCall).2._threadId = opCall._threadId
      ∧ (opJump jumpOffs vm opCall).2._callerThreadId = opCall._callerThreadId
      ∧ (opJump jumpOffs vm opCall).1._stack = vm._stack
      ∧ (opJump jumpOffs vm opCall).1 = vm := by
  refine ⟨rfl, ?_, rfl, rfl, rfl, rfl, rfl, rfl⟩
  simp only [resumeAt, opJump]
  omega

/-- The stack of the menu scenario of C5: from the empty stack, three `opAddMenuChoice` calls
with (endMarker 1, jumpOffs 10), (endMarker 1, jumpOffs 10), (endMarker 0, jumpOffs 10). -/
theorem menuScenario_stack (vm : Engine) (opCall : OpCall) :
    (opAddMenuChoice 10 0
      (opAddMenuChoice 10 1
        (opAddMenuChoice 10 1 { vm with _stack := ⟨[]⟩ } opCall).1 opCall).1 opCall).1._stack
      = ⟨[10, 0, 10, 1, 10, 1]⟩ := by
  rfl

/-- C5, as stated, fails: in the menu scenario `opDisplayMenu` does not leave the stack
empty. -/
theorem opDisplayMenu_scenario_stack_not_empty :
    (opDisplayMenu 0 0 0
        (opAddMenuChoice 10 0
          (opAddMenuChoice 10 1
            (opAddMenuChoice 10 1 { startEngine with _stack := ⟨[]⟩ } sampleCall).1
            sampleCall).1 sampleCall).1 sampleCall).map (fun r => r.1._stack)
      = some ⟨[10, 1]⟩
    ∧ ¬ ((opDisplayMenu 0 0 0
          (opAddMenuChoice 10 0
            (opAddMenuChoice 10 1
              (opAddMenuChoice 10 1 { startEngine with _stack := ⟨[]⟩ } sampleCall).1
              sampleCall).1 sampleCall).1 sampleCall).map (fun r => r.1._stack)
        = some ⟨[]⟩) := by
  decide

/-- C5, amended: in the menu scenario the pop loop of `opDisplayMenu` never pops an empty stack
(the call returns), and it pops the last two pairs only: it stops at the endMarker 1 of the
second pair, so the first pair (endMarker 1, jumpOffs 10) is left on the stack. -/
theorem opDisplayMenu_scenario_leaves_first_pair (unk1 : Int) (menuId unk2 : Nat) (vm : Engine)
    (opCall : OpCall) :
    opDisplayMenu unk1 menuId unk2
        (opAddMenuChoice 10 0
          (opAddMenuChoice 10 1
            (opAddMenuChoice 10 1 { vm with _stack := ⟨[]⟩ } opCall).1 opCall).1 opCall).1 opCall
      = some (({ vm with _stack := ⟨[10, 1]⟩ }).notifyThreadId opCall._callerThreadId,
              opCall) := by
  rfl

/-- C6: what `opChangeScene` does with operands `sceneId`, `threadId` while scene `A` is
current. When `dsceneId` is 0 (every call but the first) it records `A` as previous scene,
exits it, requests `enterScene` for `sceneId` and starts one anonymous script thread for
`threadId` with caller id 0 and the issuing thread's three context values. When `dsceneId` is
not 0 (the first call after program start) the scene entered and the thread started are
`dsceneId` and `dthreadId` instead of the operands, and `dsceneId` is cleared. -/
theorem opChangeScene_operands_or_override (sceneId threadId A : Nat)
    (scriptThread : ScriptThread) (vm : Engine) (opCall : OpCall)
    (hA : vm.getCurrentScene = A) :
    (opChangeScene sceneId threadId scriptThread vm opCall).1._prevSceneId = A
      ∧ (opChangeScene sceneId threadId scriptThread vm opCall).2 = opCall
      ∧ (vm.dsceneId = 0 →
          (opChangeScene sceneId threadId scriptThread vm opCall).1.calls
            = vm.calls ++
              [Call.discardAllEvents,
               Call.exitScene opCall._callerThreadId,
               Call.enterScene sceneId opCall._callerThreadId,
               Call.startAnonScriptThread threadId 0
                 scriptThread._value8 scriptThread._valueC scriptThread._value10])
      ∧ (vm.dsceneId ≠ 0 →
          (opChangeScene sceneId threadId scriptThread vm opCall).1.calls
            = vm.calls ++
              [Call.discardAllEvents,
               Call.exitScene opCall._callerThreadId,
               Call.enterScene vm.dsceneId opCall._callerThreadId,
               Call.startAnonScriptThread vm.dthreadId 0
                 scriptThread._value8 scriptThread._valueC scriptThread._value10]
          ∧ (opChangeScene sceneId threadId scriptThread vm opCall).1.dsceneId = 0) := by
  subst hA
  refine ⟨?_, rfl, ?_, ?_⟩
  · by_cases h : vm.dsceneId = 0 <;>
      simp [opChangeScene, h, Engine.discardAllEvents, Engine.getCurrentScene, Engine.exitScene,
        Engine.enterScene, Engine.startAnonScriptThread]
  · intro h
    simp [opChangeScene, h, Engine.discardAllEvents, Engine.exitScene, Engine.enterScene,
      Engine.startAnonScriptThread]
  · intro h
    simp [opChangeScene, h, Engine.discardAllEvents, Engine.exitScene, Engine.enterScene,
      Engine.startAnonScriptThread]

/-- Evaluation of C6 at the first call after program start, scene 0x10001 current, operands
sceneId 0x10002 and threadId 0x20002, issuing thread with context values 1, 2, 3: the scene
entered is 0x1001A and the thread started is 0x2001F, not the operands. -/
theorem opChangeScene_operands_or_override_witness :
    (opChangeScene 0x10002 0x20002 ⟨1, 2, 3⟩ { startEngine with _activeScenes := [0x10001] }
        sampleCall).1.calls
      = [Call.discardAllEvents, Call.exitScene 9, Call.enterScene 0x1001A 9,
         Call.startAnonScriptThread 0x2001F 0 1 2 3]
      ∧ (opChangeScene 0x10002 0x20002 ⟨1, 2, 3⟩ { startEngine with _activeScenes := [0x10001] }
          sampleCall).1._prevSceneId = 0x10001 :=
  ⟨((opChangeScene_operands_or_override 0x10002 0x20002 0x10001 ⟨1, 2, 3⟩
      { startEngine with _activeScenes := [0x10001] } sampleCall rfl).2.2.2 (by decide)).1,
   (opChangeScene_operands_or_override 0x10002 0x20002 0x10001 ⟨1, 2, 3⟩
      { startEngine with _activeScenes := [0x10001] } sampleCall rfl).1⟩

/-- C7: when the thread `opCall._callerThreadId` is in the thread table, `opNotifyThreadId`
returns, and it issues a notify to that thread's calling-thread id exactly when bit 0 of the
thread's notify-flags is clear; with bit 0 set nothing is issued. The outcome is a function of
`_notifyFlags % 2` alone, so the other bits have no influence. -/
theorem opNotifyThreadId_iff_bit0_clear (vm : Engine) (opCall : OpCall) (thread : Thread)
    (hfind : vm.findThread opCall._callerThreadId = some thread) :
    opNotifyThreadId vm opCall
        = some (if thread._notifyFlags % 2 = 0 then vm.notifyThreadId thread._callingThreadId
                else vm, opCall)
      ∧ ((opNotifyThreadId vm opCall).map (fun r => r.1.calls)
            = some (vm.calls ++ [Call.notifyThreadId thread._callingThreadId])
          ↔ thread._notifyFlags.testBit 0 = false)
      ∧ (thread._notifyFlags.testBit 0 = true →
          (opNotifyThreadId vm opCall).map (fun r => r.1.calls) = some vm.calls) := by
  have hand : thread._notifyFlags &&& 1 = thread._notifyFlags % 2 := Nat.and_one_is_mod _
  have hbit : thread._notifyFlags.testBit 0 = decide (thread._notifyFlags % 2 = 1) := by
    exact Nat.testBit_zero _
  have hmain : opNotifyThreadId vm opCall
      = some (if thread._notifyFlags % 2 = 0 then vm.notifyThreadId thread._callingThreadId
              else vm, opCall) := by
    unfold opNotifyThreadId
    rw [hfind]
    simp only [hand]
    by_cases h : thread._notifyFlags % 2 = 0 <;> simp [h]
  refine ⟨hmain, ?_, ?_⟩
  · rw [hmain, hbit]
    by_cases h : thread._notifyFlags % 2 = 0
    · simp [h, Engine.notifyThreadId]
    · have h1 : thread._notifyFlags % 2 = 1 := by omega
      simp [h, h1]
  · intro hset
    rw [hbit] at hset
    have h1 : thread._notifyFlags % 2 = 1 := by simpa using hset
    rw [hmain]
    simp [h1]

/-- Witness of C7: caller thread 9 with notify-flags 6 (bit 0 clear, other bits set) has its
calling thread 4 notified; with notify-flags 7 nothing is issued. -/
theorem opNotifyThreadId_iff_bit0_clear_witness :
    (opNotifyThreadId { startEngine with _threads := [⟨3, 1, 0⟩, ⟨9, 4, 6⟩] } sampleCall).map
        (fun r => r.1.calls) = some [Call.notifyThreadId 4]
      ∧ (opNotifyThreadId { startEngine with _threads := [⟨3, 1, 0⟩, ⟨9, 4, 7⟩] } sampleCall).map
          (fun r => r.1.calls) = some [] :=
  ⟨(opNotifyThreadId_iff_bit0_clear { startEngine with _threads := [⟨3, 1, 0⟩, ⟨9, 4, 6⟩] }
      sampleCall ⟨9, 4, 6⟩ rfl).2.1.mpr (by decide),
   (opNotifyThreadId_iff_bit0_clear { startEngine with _threads := [⟨3, 1, 0⟩, ⟨9, 4, 7⟩] }
      sampleCall ⟨9, 4, 7⟩ rfl).2.2 (by decide)⟩

/-- C8: `opEnterScene` always returns; the engine state is the one `enterScene(sceneId,
callerThreadId)` leaves; the outcome is terminate when `enterScene` reports failure and is the
outcome on entry when it succeeds, so from a call entered with outcome continue the outcome is
terminate if and only if `enterScene` failed. -/
theorem opEnterScene_terminates_iff_enter_fails (sceneId : Nat) (vm : Engine)
    (opCall : OpCall) :
    (opEnterScene sceneId vm opCall).1 = (vm.enterScene sceneId opCall._callerThreadId).2
      ∧ (opEnterScene sceneId vm opCall).2
          = (if (vm.enterScene sceneId opCall._callerThreadId).1 = true then opCall
             else { opCall with _result := ThreadStatus.kTSTerminate })
      ∧ (opCall._result = ThreadStatus.kTSRun →
          ((opEnterScene sceneId vm opCall).2._result = ThreadStatus.kTSTerminate
            ↔ (vm.enterScene sceneId opCall._callerThreadId).1 = false)) := by
  unfold opEnterScene
  cases h : vm.enterScene sceneId opCall._callerThreadId with
  | mk ok vm1 =>
    cases ok
    · simp
    · simp
      intro hrun
      rw [hrun]
      decide

/-- Witness of C8: a call entered with outcome continue ends with outcome terminate when the
scene manager refuses the scene, and with outcome continue when it accepts it. -/
theorem opEnterScene_terminates_iff_enter_fails_witness :
    (opEnterScene 0x10002 { startEngine with sceneEnters := fun _ _ => false }
        sampleCall).2._result = ThreadStatus.kTSTerminate
      ∧ ¬ ((opEnterScene 0x10002 startEngine sampleCall).2._result
            = ThreadStatus.kTSTerminate) :=
  ⟨((opEnterScene_terminates_iff_enter_fails 0x10002
        { startEngine with sceneEnters := fun _ _ => false } sampleCall).2.2 rfl).mpr rfl,
   fun h => Bool.noConfusion
     (((opEnterScene_terminates_iff_enter_fails 0x10002 startEngine sampleCall).2.2 rfl).mp h)⟩

/-- C9, as stated, fails: on the operands 2 and 3 `opAnd` pushes a result that is neither 0
nor 1. -/
theorem opAnd_result_not_boolean :
    (opAnd { startEngine with _stack := ⟨[2, 3]⟩ } sampleCall).map (fun r => r.1._stack)
        = some ⟨[2]⟩
    ∧ ¬ ((opAnd { startEngine with _stack := ⟨[2, 3]⟩ } sampleCall).map (fun r => r.1._stack)
          = some ⟨[0]⟩
        ∨ (opAnd { startEngine with _stack := ⟨[2, 3]⟩ } sampleCall).map (fun r => r.1._stack)
          = some ⟨[1]⟩) := by
  decide

/-- C9, amended: on signed 16-bit operands each logical opcode pops its operand(s) (one for
`opNot`, two for `opAnd` / `opOr`) and pushes a single result. The result of `opNot` is 1 when
the operand is 0 and 0 otherwise, hence 0 or 1. The result of `opAnd` / `opOr` is the bitwise
AND / OR of the two operands, which is 0 or 1 whenever both operands are 0 or 1. -/
theorem logical_opcodes_push_single_result (vm : Engine) (opCall : OpCall)
    (value1 value2 : Int) (rest : List Int)
    (h1 : -32768 ≤ value1 ∧ value1 < 32768) (h2 : -32768 ≤ value2 ∧ value2 < 32768) :
    opNot { vm with _stack := ⟨value1 :: rest⟩ } opCall
        = some ({ vm with _stack := ⟨(if value1 = 0 then 1 else 0) :: rest⟩ }, opCall)
      ∧ ((if value1 = 0 then (1 : Int) else 0) = 0 ∨ (if value1 = 0 then (1 : Int) else 0) = 1)
      ∧ opAnd { vm with _stack := ⟨value1 :: value2 :: rest⟩ } opCall
        = some ({ vm with _stack := ⟨Int.land value1 value2 :: rest⟩ }, opCall)
      ∧ opOr { vm with _stack := ⟨value1 :: value2 :: rest⟩ } opCall
        = some ({ vm with _stack := ⟨Int.lor value1 value2 :: rest⟩ }, opCall)
      ∧ ((value1 = 0 ∨ value1 = 1) → (value2 = 0 ∨ value2 = 1) →
          (Int.land value1 value2 = 0 ∨ Int.land value1 value2 = 1)
            ∧ (Int.lor value1 value2 = 0 ∨ Int.lor value1 value2 = 1)) := by
  have hand := land_int16_range value1 value2 h1.1 h1.2 h2.1 h2.2
  have hor := lor_int16_range value1 value2 h1.1 h1.2 h2.1 h2.2
  have h0 : toInt16 0 = 0 := by decide
  have h1' : toInt16 1 = 1 := by decide
  refine ⟨?_, ?_, ?_, ?_, ?_⟩
  · by_cases hz : value1 = 0 <;> simp [opNot, ScriptStack.pop, ScriptStack.push, hz, h0, h1']
  · by_cases hz : value1 = 0 <;> simp [hz]
  · simp [opAnd, ScriptStack.pop, ScriptStack.push, toInt16_of_range _ hand.1 hand.2]
  · simp [opOr, ScriptStack.pop, ScriptStack.push, toInt16_of_range _ hor.1 hor.2]
  · intro hb1 hb2
    rcases hb1 with rfl | rfl <;> rcases hb2 with rfl | rfl <;> decide

/-- Witness of C9 on the operands 1 (top) and 0 above a stack holding 7. -/
theorem logical_opcodes_push_single_result_witness :
    opNot { startEngine with _stack := ⟨[1, 7]⟩ } sampleCall
        = some ({ startEngine with _stack := ⟨[0, 7]⟩ }, sampleCall)
      ∧ opAnd { startEngine with _stack := ⟨[1, 0, 7]⟩ } sampleCall
        = some ({ startEngine with _stack := ⟨[0, 7]⟩ }, sampleCall)
      ∧ opOr { startEngine with _stack := ⟨[1, 0, 7]⟩ } sampleCall
        = some ({ startEngine with _stack := ⟨[1, 7]⟩ }, sampleCall) :=
  ⟨(logical_opcodes_push_single_result startEngine sampleCall 1 0 [7]
      (by decide) (by decide)).1,
   (logical_opcodes_push_single_result startEngine sampleCall 1 0 [7]
      (by decide) (by decide)).2.2.1,
   (logical_opcodes_push_single_result startEngine sampleCall 1 0 [7]
      (by decide) (by decide)).2.2.2.1⟩

/-- C10: with the object directory a lookup returning `Option`. For an `objectId` that does not
resolve, `opActivateObject` returns and changes nothing; `opAppearActor` returns after placing
a new actor for `objectId` (actor type 0x50001, sequence 0x60001, at named point 0x70023,
notify thread 0), starting sequence 0x60001 on it and then making it appear;
`opDeactivateObject` and `opDisappearActor` fault. For an `objectId` that resolves,
`opActivateObject` activates and `opAppearActor` appears that control and no actor is
placed. -/
theorem object_lookup_guards (objectId : Nat) (vm : Engine) (opCall : OpCall) :
    (vm.getObjectControl objectId = none →
        opActivateObject objectId vm opCall = some (vm, opCall)
        ∧ opAppearActor objectId vm opCall
            = some ({ vm with
                      _dict := ⟨objectId, 0x50001, 0x60001, vm.getNamedPointPosition 0x70023⟩
                                  :: vm._dict,
                      calls := vm.calls ++
                        [Call.placeActor 0x50001 (vm.getNamedPointPosition 0x70023) 0x60001
                            objectId 0,
                         Call.startSequenceActor objectId 0x60001 2 0,
                         Call.appearActor objectId] }, opCall)
        ∧ opDeactivateObject objectId vm opCall = none
        ∧ opDisappearActor objectId vm opCall = none)
      ∧ (∀ control : Control, vm.getObjectControl objectId = some control →
          control._objectId = objectId
          ∧ opActivateObject objectId vm opCall
              = some ({ vm with calls := vm.calls ++ [Call.activateObject objectId] }, opCall)
          ∧ opAppearActor objectId vm opCall
              = some ({ vm with calls := vm.calls ++ [Call.appearActor objectId] }, opCall)
          ∧ (opAppearActor objectId vm opCall).map (fun r => r.1._dict) = some vm._dict) := by
  constructor
  · intro hnone
    refine ⟨?_, ?_, ?_, ?_⟩
    · simp [opActivateObject, hnone]
    · have hfind : List.find? (fun control => control._objectId == objectId) vm._dict = none :=
        hnone
      simp [opAppearActor, hfind, Engine.getObjectControl, Engine.placeActor,
        Control.startSequenceActor, Control.appearActor, Engine.getNamedPointPosition]
    · simp [opDeactivateObject, hnone]
    · simp [opDisappearActor, hnone]
  · intro control hsome
    have hid : control._objectId = objectId := by
      have h := List.find?_some hsome
      simpa using h
    refine ⟨hid, ?_, ?_, ?_⟩
    · simp [opActivateObject, hsome, Control.activateObject, hid]
    · simp [opAppearActor, hsome, Control.appearActor, hid]
    · simp [opAppearActor, hsome, Control.appearActor]

/-- Witness of C10: object 0x40001 against the empty directory (unresolved) and against a
directory that holds it (resolved). -/
theorem object_lookup_guards_witness :
    (opActivateObject 0x40001 startEngine sampleCall = some (startEngine, sampleCall)
      ∧ (opAppearActor 0x40001 startEngine sampleCall).map (fun r => r.1.calls)
          = some [Call.placeActor 0x50001 (0, 0) 0x60001 0x40001 0,
                  Call.startSequenceActor 0x40001 0x60001 2 0,
                  Call.appearActor 0x40001]
      ∧ opDeactivateObject 0x40001 startEngine sampleCall = none
      ∧ opDisappearActor 0x40001 startEngine sampleCall = none)
    ∧ (opAppearActor 0x40001 { startEngine with _dict := [⟨0x40001, 0x50002, 0x60002, (3, 4)⟩] }
          sampleCall).map (fun r => r.1.calls) = some [Call.appearActor 0x40001] :=
  ⟨⟨((object_lookup_guards 0x40001 startEngine sampleCall).1 rfl).1,
    by rw [((object_lookup_guards 0x40001 startEngine sampleCall).1 rfl).2.1]; rfl,
    ((object_lookup_guards 0x40001 startEngine sampleCall).1 rfl).2.2.1,
    ((object_lookup_guards 0x40001 startEngine sampleCall).1 rfl).2.2.2⟩,
   by rw [((object_lookup_guards 0x40001
            { startEngine with _dict := [⟨0x40001, 0x50002, 0x60002, (3, 4)⟩] } sampleCall).2
            ⟨0x40001, 0x50002, 0x60002, (3, 4)⟩ rfl).2.2.1]; rfl⟩

/-- C11: after `initOpcodes`, whatever the table held before, a slot `i < 256` holds a handler
if and only if `i` is named by one of the `OPCODE` lines, and is null otherwise; there are 80
such lines, all below 256, and no opcode value is named twice, so every line's slot holds the
handler and the debug name of that line. Slots 0, 1, 7 and 255 are null. -/
theorem initOpcodes_slots (table : ScriptOpcodes) :
    (∀ i : Nat, i < 256 →
        (((initOpcodes table)._opcodes i).isSome = true ↔ i ∈ registrations.map Prod.fst))
      ∧ (∀ i : Nat, i < 256 → i ∉ registrations.map Prod.fst →
          (initOpcodes table)._opcodes i = none)
      ∧ (∀ r ∈ registrations,
          (initOpcodes table)._opcodes r.1 = some r.2
            ∧ (initOpcodes table)._opcodeNames r.1 = r.2.debugName)
      ∧ registrations.length = 80
      ∧ (registrations.map Prod.fst).Nodup
      ∧ (∀ r ∈ registrations, r.1 < 256)
      ∧ registrations.map Prod.fst
          = [2, 3, 4, 5, 6, 8, 9, 12, 14, 15, 16, 17, 20, 25, 26, 27,
           30, 31, 32, 34, 35, 36, 37, 39, 42, 43, 45, 46, 47, 48, 49, 51,
           53, 56, 57, 58, 60, 61, 62, 63, 64, 65, 66, 67, 71, 74, 75, 76,
           78, 79, 80, 81, 82, 84, 87, 88, 103, 104, 105, 106, 107, 108, 109, 110,
           111, 126, 144, 146, 147, 148, 150, 160, 161, 168, 169, 175, 176, 177, 178, 179]
      ∧ (initOpcodes table)._opcodes 0 = none
      ∧ (initOpcodes table)._opcodes 1 = none
      ∧ (initOpcodes table)._opcodes 7 = none
      ∧ (initOpcodes table)._opcodes 255 = none := by
  have hnull : ∀ i : Nat, i < 256 → i ∉ registrations.map Prod.fst →
      (initOpcodes table)._opcodes i = none := by
    intro i hi hnot
    unfold initOpcodes
    rw [(foldl_OPCODE_other registrations _ i hnot).1]
    exact clearLoop_opcodes 256 table i hi
  have hreg : ∀ r ∈ registrations,
      (initOpcodes table)._opcodes r.1 = some r.2
        ∧ (initOpcodes table)._opcodeNames r.1 = r.2.debugName := by
    intro r hr
    exact foldl_OPCODE_registered registrations _ registrations_nodup r hr
  refine ⟨?_, hnull, hreg, by decide, registrations_nodup, by decide, by decide,
    hnull 0 (by decide) (by decide), hnull 1 (by decide) (by decide),
    hnull 7 (by decide) (by decide), hnull 255 (by decide) (by decide)⟩
  intro i hi
  constructor
  · intro hsome
    by_contra hnot
    rw [hnull i hi hnot] at hsome
    exact Bool.noConfusion hsome
  · intro hmem
    obtain ⟨r, hr, hri⟩ := List.mem_map.mp hmem
    subst hri
    rw [(hreg r hr).1]
    rfl

/-- Witness of C11 on a table whose slots all held a handler before: after `initOpcodes` slot
7 is null, and slot 5 holds `opJump` with its debug name. -/
theorem initOpcodes_slots_witness :
    (initOpcodes staleOpcodes)._opcodes 7 = none
      ∧ (initOpcodes staleOpcodes)._opcodes 5 = some Handler.opJump
      ∧ (initOpcodes staleOpcodes)._opcodeNames 5 = "opJump" := by
  have hmem : (5, Handler.opJump) ∈ registrations := by
    simp [registrations]
  have hnot : 7 ∉ registrations.map Prod.fst := by
    decide
  have h7 := (initOpcodes_slots staleOpcodes).2.1 7 (by omega) hnot
  have h5 := (initOpcodes_slots staleOpcodes).2.2.1 (5, Handler.opJump) hmem
  simp only [Handler.debugName] at h5
  exact ⟨h7, h5⟩

/-- C12: what `opSwitchMenuChoice` does: whatever offset `m` the engine's menu-choice offset
held, the handler stores 88 there and adds 88 to `deltaOfs`; with `m = 10` stored, `deltaOfs`
does not end 10 larger and the stored offset is no longer 10. -/
theorem opSwitchMenuChoice_applies_88 (vm : Engine) (opCall : OpCall) :
    opSwitchMenuChoice vm opCall
        = ({ vm with _menuChoiceOfs := 88 },
           { opCall with _deltaOfs := opCall._deltaOfs + 88 })
      ∧ (opSwitchMenuChoice vm opCall).2._deltaOfs = opCall._deltaOfs + 88
      ∧ (opSwitchMenuChoice vm opCall).1._menuChoiceOfs = 88
      ∧ ¬ ((opSwitchMenuChoice { startEngine with _menuChoiceOfs := 10 } sampleCall).2._deltaOfs
            = sampleCall._deltaOfs + 10)
      ∧ ¬ ((opSwitchMenuChoice { startEngine with _menuChoiceOfs := 10 }
            sampleCall).1._menuChoiceOfs = 10) := by
  refine ⟨rfl, rfl, rfl, ?_, ?_⟩ <;> decide

/-- C13: after `n >= 1` successive `opAddMenuChoice` calls of which the first has a non-zero
(16-bit) endMarker and the later ones have endMarker 0, with any jumpOffs values,
`opDisplayMenu` returns and pops exactly the `2 * n` values those calls pushed: the stack is
the initial stack again and the rest of the engine state is the initial one with the notify of
the caller thread recorded. `opAddMenuChoice` pushes endMarker first and jumpOffs on top. -/
theorem opDisplayMenu_pops_added_choices (unk1 : Int) (menuId unk2 : Nat) (vm : Engine)
    (opCall : OpCall) (jumpOffs0 endMarker0 : Int) (later : List (Int × Int))
    (hrange : -32768 ≤ endMarker0 ∧ endMarker0 < 32768) (hfirst : endMarker0 ≠ 0)
    (hlater : ∀ choice ∈ later, choice.2 = 0) :
    opDisplayMenu unk1 menuId unk2
        (addMenuChoices ((jumpOffs0, endMarker0) :: later) vm opCall) opCall
        = some (vm.notifyThreadId opCall._callerThreadId, opCall)
      ∧ (opDisplayMenu unk1 menuId unk2
          (addMenuChoices ((jumpOffs0, endMarker0) :: later) vm opCall) opCall).map
            (fun r => r.1._stack) = some vm._stack
      ∧ (addMenuChoices ((jumpOffs0, endMarker0) :: later) vm opCall)._stack._stack.length
          = vm._stack._stack.length + 2 * (later.length + 1)
      ∧ (∀ jumpOffs endMarker : Int,
          (opAddMenuChoice jumpOffs endMarker vm opCall).1._stack._stack
            = toInt16 jumpOffs :: toInt16 endMarker :: vm._stack._stack)
      ∧ (∀ jumpOffs endMarker : Int, -32768 ≤ jumpOffs ∧ jumpOffs < 32768 →
          -32768 ≤ endMarker ∧ endMarker < 32768 →
          (opAddMenuChoice jumpOffs endMarker vm opCall).1._stack._stack
            = jumpOffs :: endMarker :: vm._stack._stack) := by
  have he : toInt16 endMarker0 = endMarker0 := toInt16_of_range _ hrange.1 hrange.2
  have hpop : popMenuChoices
      (pushedChoices ((jumpOffs0, endMarker0) :: later) ++ vm._stack._stack)
      = some vm._stack._stack := by
    simp only [pushedChoices, List.append_assoc]
    rw [popMenuChoices_pushedChoices later hlater]
    simp [popMenuChoices, he, hfirst]
  have hmain : opDisplayMenu unk1 menuId unk2
      (addMenuChoices ((jumpOffs0, endMarker0) :: later) vm opCall) opCall
      = some (vm.notifyThreadId opCall._callerThreadId, opCall) := by
    rw [addMenuChoices_eq]
    unfold opDisplayMenu
    simp only [hpop]
  refine ⟨hmain, ?_, ?_, ?_, ?_⟩
  · rw [hmain]; rfl
  · rw [addMenuChoices_eq]
    simp only [List.length_append, pushedChoices_length, List.length_cons]
    omega
  · intro jumpOffs endMarker
    rfl
  · intro jumpOffs endMarker hj hm
    simp [opAddMenuChoice, ScriptStack.push, toInt16_of_range _ hj.1 hj.2,
      toInt16_of_range _ hm.1 hm.2]

/-- Witness of C13: three choices (jumpOffs 10, endMarker 1), (20, 0), (30, 0) added above a
stack holding 7; `opDisplayMenu` leaves the stack holding 7. -/
theorem opDisplayMenu_pops_added_choices_witness :
    (opDisplayMenu 0 0 0
        (addMenuChoices [(10, 1), (20, 0), (30, 0)] { startEngine with _stack := ⟨[7]⟩ }
          sampleCall) sampleCall).map (fun r => r.1._stack) = some ⟨[7]⟩
      ∧ (addMenuChoices [(10, 1), (20, 0), (30, 0)] { startEngine with _stack := ⟨[7]⟩ }
          sampleCall)._stack = ⟨[30, 0, 20, 0, 10, 1, 7]⟩ :=
  ⟨(opDisplayMenu_pops_added_choices 0 0 0 { startEngine with _stack := ⟨[7]⟩ } sampleCall
      10 1 [(20, 0), (30, 0)] (by decide) (by decide) (by decide)).2.1,
   by decide⟩

/-- C14: on a stack whose top is `lvalue`, `opIfLte` returns, pops exactly that one value and
adds `elseJumpOffs` to `deltaOfs` exactly when not `lvalue <= rvalue`, that is when
`lvalue > rvalue`; when `lvalue <= rvalue` the call context is unchanged. The outcome, the
other fields of the call context, the rest of the stack and the rest of the engine state are
unchanged in both cases. -/
theorem opIfLte_jumps_iff_greater (rvalue elseJumpOffs lvalue : Int) (rest : List Int)
    (vm : Engine) (opCall : OpCall) :
    opIfLte rvalue elseJumpOffs { vm with _stack := ⟨lvalue :: rest⟩ } opCall
        = some ({ vm with _stack := ⟨rest⟩ },
                { opCall with _deltaOfs :=
                    if rvalue < lvalue then opCall._deltaOfs + elseJumpOffs
                    else opCall._deltaOfs })
      ∧ (lvalue ≤ rvalue →
          opIfLte rvalue elseJumpOffs { vm with _stack := ⟨lvalue :: rest⟩ } opCall
            = some ({ vm with _stack := ⟨rest⟩ }, opCall))
      ∧ (¬ (lvalue ≤ rvalue) →
          opIfLte rvalue elseJumpOffs { vm with _stack := ⟨lvalue :: rest⟩ } opCall
            = some ({ vm with _stack := ⟨rest⟩ },
                    { opCall with _deltaOfs := opCall._deltaOfs + elseJumpOffs })) := by
  refine ⟨?_, ?_, ?_⟩
  · by_cases h : lvalue ≤ rvalue
    · have h' : ¬ (rvalue < lvalue) := by omega
      simp [opIfLte, ScriptStack.pop, h, h']
    · have h' : rvalue < lvalue := by omega
      simp [opIfLte, ScriptStack.pop, h']
  · intro h
    simp [opIfLte, ScriptStack.pop, h]
  · intro h
    have h' : rvalue < lvalue := by omega
    simp [opIfLte, ScriptStack.pop, h']

/-- Witness of C14: top 5 against `rvalue` 3 jumps by 4; top 3 against `rvalue` 3 does not. -/
theorem opIfLte_jumps_iff_greater_witness :
    opIfLte 3 4 { startEngine with _stack := ⟨[5, 9]⟩ } sampleCall
        = some ({ startEngine with _stack := ⟨[9]⟩ },
                { sampleCall with _deltaOfs := sampleCall._deltaOfs + 4 })
      ∧ opIfLte 3 4 { startEngine with _stack := ⟨[3, 9]⟩ } sampleCall
        = some ({ startEngine with _stack := ⟨[9]⟩ }, sampleCall) :=
  ⟨(opIfLte_jumps_iff_greater 3 4 5 [9] startEngine sampleCall).2.2 (by decide),
   (opIfLte_jumps_iff_greater 3 4 3 [9] startEngine sampleCall).2.1 (by decide)⟩

end Illusions
